import Mathlib

/-!
Verification of the trading-agent orchestrator backend.

Shallow embedding of the parts of the backend the claims are about:
  * `app/core/locks.py` — Redis-backed distributed locks (SET NX EX,
    Lua compare-and-delete release, per-lock-type policies);
  * `app/api/agents.py` — the decision-trigger entry points, the
    hold/wait order persistence, the LLM request-log callback, and the
    agent list endpoint;
  * `app/data/repositories.py` — the stock-quote upsert;
  * `app/data/market_service.py` — the market-sentiment refresh;
  * `app/core/task_executor.py` — task skip rules and overall status.

Python `Decimal` values are modelled as `ℚ`, database tables as lists of
row structures, the Redis store as a function from keys to optional
entries, and Python strings as `String` (or `List Char` where character
slicing matters).
-/

/-! ### Redis store and the distributed lock (`app/core/locks.py`) -/

/-- One Redis entry as the lock code uses it: the stored owner token and
the expiry (seconds) it was set with. -/
structure RedisEntry where
  value : String
  ttl : Nat
  deriving DecidableEq, Repr

/-- The Redis key space: each key holds at most one entry. -/
def Redis : Type := String → Option RedisEntry

/-- Write one key of the store. -/
def Redis.setKey (r : Redis) (k : String) (e : Option RedisEntry) : Redis :=
  fun k2 => if k2 = k then e else r k2

/-- `SET key value NX EX ttl` (locks.py line 103): sets the key to the
owner token with expiry `ttl` only when the key is absent; returns the
new store and whether the set happened. -/
def set_nx (r : Redis) (k v : String) (ttl : Nat) : Redis × Bool :=
  match r k with
  | some _ => (r, false)
  | none => (r.setKey k (some ⟨v, ttl⟩), true)

/-- Configuration of one `DistributedLock` instance (locks.py `__init__`):
key, ttl, retry_times and retry_delay (milliseconds). -/
structure LockConfig where
  key : String
  ttl : Nat
  retry_times : Nat
  retry_delay_ms : Nat
  deriving DecidableEq, Repr

/-- `agent_decision_lock` (locks.py lines 251-258): decision lock with
key `lock:agent:decision:<agent_id>`, TTL 300 s, a single attempt
(retry_times = 1) and no retry delay. -/
def agent_decision_lock (agent_id : String) : LockConfig :=
  { key := "lock:agent:decision:" ++ agent_id
    ttl := 300
    retry_times := 1
    retry_delay_ms := 0 }

/-- The attempt loop of `DistributedLock.acquire` /
`AsyncDistributedLock.acquire_async`: up to `attempts` SET NX EX calls,
stopping at the first success.  Returns the resulting store, whether the
lock was acquired, and how many SET NX attempts were made. -/
def acquire_loop (r : Redis) (k v : String) (ttl : Nat) : Nat → Redis × Bool × Nat
  | 0 => (r, false, 0)
  | n + 1 =>
    let s := set_nx r k v ttl
    if s.2 then (s.1, true, 1)
    else
      let rec1 := acquire_loop s.1 k v ttl n
      (rec1.1, rec1.2.1, rec1.2.2 + 1)

/-- `acquire_async(blocking)` (locks.py lines 209-235): the loop runs
`retry_times` times when blocking and exactly once otherwise. -/
def acquire_async (r : Redis) (cfg : LockConfig) (lock_id : String) (blocking : Bool) :
    Redis × Bool × Nat :=
  acquire_loop r cfg.key lock_id cfg.ttl (if blocking then cfg.retry_times else 1)

/-- `DistributedLock.release` (locks.py lines 125-152): the Lua script
deletes the key and answers 1 only when the key currently holds the
caller's own lock id; otherwise it deletes nothing and answers 0. -/
def DistributedLock.release (r : Redis) (k lock_id : String) : Redis × Bool :=
  match r k with
  | some e =>
    if e.value = lock_id then (r.setKey k none, true) else (r, false)
  | none => (r, false)

/-! ### Decision-trigger lock gate (`app/api/agents.py`) -/

/-- Externally observable outcome of one decision trigger: the response
fields the claim is about, whether an HTTP error was raised, and how
much work was done. -/
structure TriggerOutcome where
  success : Bool
  error_message : Option String
  http_status : Option Nat
  llm_calls : Nat
  orders_written : Nat
  set_nx_attempts : Nat
  deriving DecidableEq, Repr

/-- The busy response of agents.py lines 1018-1023 / 437-439: body with
`success = false` and the agent-busy message, no HTTP error raised, no
LLM call, no order written. -/
def busy_outcome (attempts : Nat) : TriggerOutcome :=
  { success := false
    error_message := some "Agent正在执行决策，请稍后重试"
    http_status := none
    llm_calls := 0
    orders_written := 0
    set_nx_attempts := attempts }

/-- `trigger_decision` (agents.py lines 1016-1023): builds the decision
lock, makes one non-blocking acquisition attempt, and on failure returns
the busy body at once; on success the remainder of the endpoint runs
(modelled by the abstract `body`). -/
def trigger_decision (r : Redis) (agent_id lock_id : String)
    (body : Redis → TriggerOutcome) : TriggerOutcome :=
  let cfg := agent_decision_lock agent_id
  let a := acquire_async r cfg lock_id false
  if a.2.1 then
    let o := body a.1
    { o with set_nx_attempts := o.set_nx_attempts + a.2.2 }
  else
    busy_outcome a.2.2

/-- `trigger_agent_decision` (agents.py lines 436-439), the scheduler
entry: the same lock gate with the same busy dictionary. -/
def trigger_agent_decision (r : Redis) (agent_id lock_id : String)
    (body : Redis → TriggerOutcome) : TriggerOutcome :=
  let cfg := agent_decision_lock agent_id
  let a := acquire_async r cfg lock_id false
  if a.2.1 then
    let o := body a.1
    { o with set_nx_attempts := o.set_nx_attempts + a.2.2 }
  else
    busy_outcome a.2.2

/-! ### Theorems for C1 and C2 -/

/-- C1.  While another cycle holds the agent's decision lock, a manual
trigger (`trigger_decision`) or a scheduler trigger
(`trigger_agent_decision`) makes exactly one non-blocking SET NX attempt
under the decision-lock policy (TTL 300 s, retry_times 1) and returns a
body with `success = false` and the agent-busy message, raising no HTTP
error, making no LLM call and writing no order. -/
theorem decision_trigger_busy_when_locked
    (r : Redis) (agent_id lock_id : String) (body : Redis → TriggerOutcome)
    (hheld : (r (agent_decision_lock agent_id).key).isSome) :
    (agent_decision_lock agent_id).ttl = 300 ∧
    (agent_decision_lock agent_id).retry_times = 1 ∧
    trigger_decision r agent_id lock_id body = busy_outcome 1 ∧
    trigger_agent_decision r agent_id lock_id body = busy_outcome 1 ∧
    (busy_outcome 1).success = false ∧
    (busy_outcome 1).error_message = some "Agent正在执行决策，请稍后重试" ∧
    (busy_outcome 1).http_status = none ∧
    (busy_outcome 1).llm_calls = 0 ∧
    (busy_outcome 1).orders_written = 0 ∧
    (busy_outcome 1).set_nx_attempts = 1 := by
  obtain ⟨e, he⟩ := Option.isSome_iff_exists.mp hheld
  have hset : set_nx r (agent_decision_lock agent_id).key lock_id
      (agent_decision_lock agent_id).ttl = (r, false) := by
    unfold set_nx
    rw [he]
  have hacq : acquire_async r (agent_decision_lock agent_id) lock_id false = (r, false, 1) := by
    unfold acquire_async
    simp only [Bool.false_eq_true, reduceIte]
    unfold acquire_loop
    rw [hset]
    simp [acquire_loop]
  refine ⟨rfl, rfl, ?_, ?_, rfl, rfl, rfl, rfl, rfl, rfl⟩
  · simp only [trigger_decision, hacq, Bool.false_eq_true, reduceIte]
  · simp only [trigger_agent_decision, hacq, Bool.false_eq_true, reduceIte]

/-- A Redis store in which another owner holds agent a1's decision lock. -/
def redis_example : Redis :=
  fun k => if k = "lock:agent:decision:a1" then some ⟨"other-owner", 300⟩ else none

/-- Witness for C1 at a concrete store: the lock key of agent a1 is held
by another owner and the trigger returns the busy body after one attempt. -/
theorem decision_trigger_busy_when_locked_witness :
    trigger_decision redis_example "a1" "my-token" (fun _ => busy_outcome 0) =
      busy_outcome 1 :=
  (decision_trigger_busy_when_locked redis_example "a1" "my-token"
    (fun _ => busy_outcome 0) (by rfl)).2.2.1

/-- C2.  `DistributedLock.release` deletes the key and returns true
exactly when the key currently holds the releasing instance's own token;
when the key is absent or holds another owner's token it deletes nothing
and returns false, leaving the store untouched. -/
theorem release_only_own_token (r : Redis) (k lock_id : String) :
    ((DistributedLock.release r k lock_id).2 = true ↔
      ∃ e, r k = some e ∧ e.value = lock_id) ∧
    ((DistributedLock.release r k lock_id).2 = true →
      (DistributedLock.release r k lock_id).1 k = none ∧
      ∀ k2, k2 ≠ k → (DistributedLock.release r k lock_id).1 k2 = r k2) ∧
    ((DistributedLock.release r k lock_id).2 = false →
      (DistributedLock.release r k lock_id).1 = r) := by
  cases hk : r k with
  | none =>
    have hrel : DistributedLock.release r k lock_id = (r, false) := by
      unfold DistributedLock.release
      rw [hk]
    rw [hrel]
    refine ⟨?_, fun h => Bool.noConfusion h, fun _ => rfl⟩
    simp only [Bool.false_eq_true, false_iff]
    rintro ⟨e, he, -⟩
    exact Option.noConfusion he
  | some e =>
    by_cases hv : e.value = lock_id
    · have hrel : DistributedLock.release r k lock_id = (r.setKey k none, true) := by
        unfold DistributedLock.release
        rw [hk]
        show (if e.value = lock_id then (r.setKey k none, true) else (r, false)) =
          (r.setKey k none, true)
        rw [if_pos hv]
      rw [hrel]
      refine ⟨?_, ?_, fun h => Bool.noConfusion h⟩
      · simp only [true_iff]
        exact ⟨e, rfl, hv⟩
      · intro _
        refine ⟨by simp [Redis.setKey], fun k2 hk2 => by simp [Redis.setKey, hk2]⟩
    · have hrel : DistributedLock.release r k lock_id = (r, false) := by
        unfold DistributedLock.release
        rw [hk]
        show (if e.value = lock_id then (r.setKey k none, true) else (r, false)) = (r, false)
        rw [if_neg hv]
      rw [hrel]
      refine ⟨?_, fun h => Bool.noConfusion h, fun _ => rfl⟩
      simp only [Bool.false_eq_true, false_iff]
      rintro ⟨e2, he2, hv2⟩
      cases Option.some.inj he2
      exact hv hv2

/-- Witness for C2 at a concrete store: the holder's own token releases
the lock, and the released store no longer holds the key. -/
theorem release_only_own_token_witness :
    (DistributedLock.release redis_example "lock:agent:decision:a1" "other-owner").2 = true ∧
    (DistributedLock.release redis_example "lock:agent:decision:a1" "other-owner").1
      "lock:agent:decision:a1" = none ∧
    (DistributedLock.release redis_example "lock:agent:decision:a1" "stranger").2 = false := by
  have h1 := release_only_own_token redis_example "lock:agent:decision:a1" "other-owner"
  have h2 := release_only_own_token redis_example "lock:agent:decision:a1" "stranger"
  have hown : (DistributedLock.release redis_example "lock:agent:decision:a1" "other-owner").2
      = true :=
    h1.1.mpr ⟨⟨"other-owner", 300⟩, rfl, rfl⟩
  refine ⟨hown, (h1.2.1 hown).1, ?_⟩
  have : ¬ ∃ e, redis_example "lock:agent:decision:a1" = some e ∧ e.value = "stranger" := by
    rintro ⟨e, he, hv⟩
    have : e = ⟨"other-owner", 300⟩ := Option.some.inj he.symm ▸ rfl
    simp [this] at hv
  cases hre : (DistributedLock.release redis_example "lock:agent:decision:a1" "stranger").2 with
  | false => rfl
  | true => exact absurd (h2.1.mp hre) this

/-! ### Decisions and the hold/wait persistence path (`app/api/agents.py`) -/

/-- Decision kinds the LLM may return (§4.7 of the code's parse step). -/
inductive DecisionType
  | buy
  | sell
  | hold
  | wait
  deriving DecidableEq, Repr

/-- One parsed LLM decision. -/
structure Decision where
  decision : DecisionType
  stock_code : Option String
  quantity : Option Int
  price : Option ℚ
  reason : String
  deriving DecidableEq, Repr

/-- One persisted `orders` row (`OrderModel`). -/
structure OrderRow where
  order_id : String
  agent_id : String
  llm_request_log_id : Option Nat
  stock_code : Option String
  side : String
  quantity : Option Int
  price : Option ℚ
  status : String
  reason : String
  deriving DecidableEq, Repr

/-- One persisted `transactions` row (`TransactionModel`). -/
structure TxRow where
  tx_id : String
  order_id : String
  agent_id : String
  stock_code : Option String
  side : String
  quantity : Option Int
  price : Option ℚ
  commission : Option ℚ
  stamp_tax : Option ℚ
  transfer_fee : Option ℚ
  deriving DecidableEq, Repr

/-- One stock position of an agent's portfolio. -/
structure Position where
  stock_code : String
  shares : Int
  avg_cost : ℚ
  buy_date : String
  deriving DecidableEq, Repr

/-- The state one decision cycle mutates: the persisted order and
transaction rows together with the agent's cash and positions. -/
structure CycleState where
  orders : List OrderRow
  txs : List TxRow
  cash : ℚ
  positions : List Position
  deriving DecidableEq, Repr

/-- The synthetic hold order row of agents.py lines 1223-1233: side hold,
status filled, no stock code, quantity or price. -/
def hold_order_row (order_id agent_id : String) (llm_log_id : Option Nat)
    (reason : String) : OrderRow :=
  { order_id := order_id
    agent_id := agent_id
    llm_request_log_id := llm_log_id
    stock_code := none
    side := "hold"
    quantity := none
    price := none
    status := "filled"
    reason := reason }

/-- The synthetic hold transaction row of agents.py lines 1237-1248: no
stock code, quantity, price or fees. -/
def hold_tx_row (tx_id order_id agent_id : String) : TxRow :=
  { tx_id := tx_id
    order_id := order_id
    agent_id := agent_id
    stock_code := none
    side := "hold"
    quantity := none
    price := none
    commission := none
    stamp_tax := none
    transfer_fee := none }

/-- One iteration of the per-decision loop of `trigger_decision` /
`trigger_agent_decision` (agents.py lines 1217-1329 and 598-688): a hold
or wait decision appends the synthetic order and transaction rows and
touches nothing else; buy and sell proceed into the order-processing
path (abstracted here as `buy_sell`, outside this claim); anything else
is skipped. -/
def process_decision (buy_sell : CycleState → Decision → CycleState)
    (order_id tx_id agent_id : String) (llm_log_id : Option Nat)
    (st : CycleState) (d : Decision) : CycleState :=
  if d.decision = .hold ∨ d.decision = .wait then
    { st with
      orders := st.orders ++ [hold_order_row order_id agent_id llm_log_id d.reason]
      txs := st.txs ++ [hold_tx_row tx_id order_id agent_id] }
  else if d.decision = .buy ∨ d.decision = .sell then
    buy_sell st d
  else
    st

/-- C3.  Processing a hold or wait decision in a successful cycle
appends exactly one order row (side hold, status filled, null stock
code, quantity and price) and exactly one transaction row with null
quantity, price and fees, and leaves the agent's cash and positions
unchanged. -/
theorem hold_wait_persists_synthetic_rows
    (buy_sell : CycleState → Decision → CycleState)
    (order_id tx_id agent_id : String) (llm_log_id : Option Nat)
    (st : CycleState) (d : Decision)
    (h : d.decision = .hold ∨ d.decision = .wait) :
    (process_decision buy_sell order_id tx_id agent_id llm_log_id st d).orders
        = st.orders ++ [hold_order_row order_id agent_id llm_log_id d.reason] ∧
    (hold_order_row order_id agent_id llm_log_id d.reason).side = "hold" ∧
    (hold_order_row order_id agent_id llm_log_id d.reason).status = "filled" ∧
    (hold_order_row order_id agent_id llm_log_id d.reason).stock_code = none ∧
    (hold_order_row order_id agent_id llm_log_id d.reason).quantity = none ∧
    (hold_order_row order_id agent_id llm_log_id d.reason).price = none ∧
    (process_decision buy_sell order_id tx_id agent_id llm_log_id st d).txs
        = st.txs ++ [hold_tx_row tx_id order_id agent_id] ∧
    (hold_tx_row tx_id order_id agent_id).order_id = order_id ∧
    (hold_tx_row tx_id order_id agent_id).quantity = none ∧
    (hold_tx_row tx_id order_id agent_id).price = none ∧
    (hold_tx_row tx_id order_id agent_id).commission = none ∧
    (hold_tx_row tx_id order_id agent_id).stamp_tax = none ∧
    (hold_tx_row tx_id order_id agent_id).transfer_fee = none ∧
    (process_decision buy_sell order_id tx_id agent_id llm_log_id st d).cash = st.cash ∧
    (process_decision buy_sell order_id tx_id agent_id llm_log_id st d).positions
        = st.positions := by
  have hp : process_decision buy_sell order_id tx_id agent_id llm_log_id st d =
      { st with
        orders := st.orders ++ [hold_order_row order_id agent_id llm_log_id d.reason]
        txs := st.txs ++ [hold_tx_row tx_id order_id agent_id] } := by
    unfold process_decision
    rw [if_pos h]
  rw [hp]
  exact ⟨rfl, rfl, rfl, rfl, rfl, rfl, rfl, rfl, rfl, rfl, rfl, rfl, rfl, rfl, rfl⟩

/-- Witness for C3 at a concrete state: a wait decision appends the
synthetic rows and leaves cash untouched. -/
theorem hold_wait_persists_synthetic_rows_witness :
    (process_decision (fun st _ => st) "o1" "t1" "a1" (some 7)
        { orders := [], txs := [], cash := 100000, positions := [] }
        { decision := .wait, stock_code := none, quantity := none, price := none,
          reason := "observe" }).cash = 100000 :=
  (hold_wait_persists_synthetic_rows (fun st _ => st) "o1" "t1" "a1" (some 7)
    { orders := [], txs := [], cash := 100000, positions := [] }
    { decision := .wait, stock_code := none, quantity := none, price := none,
      reason := "observe" }
    (Or.inr rfl)).2.2.2.2.2.2.2.2.2.2.2.2.2.1

/-! ### LLM request-log truncation (`log_llm_request` in agents.py) -/

/-- Python truthiness of an optional string (characters modelled as a
list): false for absent and for empty content. -/
def py_truthy (s : Option (List Char)) : Bool :=
  match s with
  | none => false
  | some l => !l.isEmpty

/-- Stored `request_content` (agents.py line 1101 / 501):
`request_content[:10000] if request_content else ""`. -/
def log_request_content (request_content : Option (List Char)) : List Char :=
  if py_truthy request_content then (request_content.getD []).take 10000 else []

/-- Stored `response_content` (agents.py line 1102 / 502):
`response_content[:10000] if response_content else None`. -/
def log_response_content (response_content : Option (List Char)) : Option (List Char) :=
  if py_truthy response_content then some ((response_content.getD []).take 10000) else none

/-- C8 counterexample.  The claim says content at or under 10,000
characters is stored unmodified, but an empty response string is stored
as null, not as the empty string. -/
theorem llm_log_empty_response_stored_as_null :
    log_response_content (some []) = none ∧
    log_response_content (some []) ≠ some [] := by
  refine ⟨rfl, ?_⟩
  intro h
  exact Option.noConfusion h

/-- C8 as amended.  The stored request content is always the first
10,000 characters of the request (the empty string when the request is
absent or empty); a non-empty response is stored as its first 10,000
characters, unmodified when it has at most 10,000; an absent or empty
response is stored as null; stored contents never exceed 10,000
characters. -/
theorem llm_log_truncation (req resp : Option (List Char)) :
    log_request_content req = (req.getD []).take 10000 ∧
    (log_request_content req).length ≤ 10000 ∧
    (∀ s, req = some s → s.length ≤ 10000 → log_request_content req = s) ∧
    (∀ s, resp = some s → s ≠ [] → log_response_content resp = some (s.take 10000)) ∧
    (∀ s, resp = some s → s ≠ [] → s.length ≤ 10000 → log_response_content resp = some s) ∧
    ((resp = none ∨ resp = some []) → log_response_content resp = none) ∧
    (∀ t, log_response_content resp = some t → t.length ≤ 10000) := by
  refine ⟨?_, ?_, ?_, ?_, ?_, ?_, ?_⟩
  · cases req with
    | none => rfl
    | some s =>
      cases s with
      | nil => rfl
      | cons c cs => simp [log_request_content, py_truthy]
  · cases req with
    | none => simp [log_request_content]
    | some s =>
      by_cases hs : py_truthy (some s) = true
      · simp only [log_request_content, if_pos hs, Option.getD_some]
        rw [List.length_take]
        exact min_le_left _ _
      · simp [log_request_content, hs]
  · rintro s rfl hle
    cases s with
    | nil => rfl
    | cons c cs =>
      simp only [log_request_content, py_truthy, List.isEmpty_cons, Bool.not_false, if_pos,
        Option.getD_some]
      exact List.take_of_length_le hle
  · rintro s rfl hne
    have : py_truthy (some s) = true := by
      cases s with
      | nil => exact absurd rfl hne
      | cons c cs => rfl
    simp [log_response_content, this]
  · rintro s rfl hne hle
    have ht : py_truthy (some s) = true := by
      cases s with
      | nil => exact absurd rfl hne
      | cons c cs => rfl
    simp only [log_response_content, if_pos ht, Option.getD_some]
    rw [List.take_of_length_le hle]
  · rintro (rfl | rfl) <;> rfl
  · intro t ht
    cases resp with
    | none => exact Option.noConfusion ht
    | some s =>
      by_cases hs : py_truthy (some s) = true
      · simp only [log_response_content, if_pos hs, Option.getD_some] at ht
        cases Option.some.inj ht
        rw [List.length_take]
        exact min_le_left _ _
      · simp [log_response_content, hs] at ht

/-- Witness for C8 at concrete content: a two-character request under
the limit is stored unmodified. -/
theorem llm_log_truncation_witness :
    log_request_content (some ['h', 'i']) = ['h', 'i'] :=
  (llm_log_truncation (some ['h', 'i']) none).2.2.1 ['h', 'i'] rfl (by decide)

/-! ### Stock-quote upsert (`app/data/repositories.py` lines 23-112) -/

/-- The `StockQuote` entity (`app/models/entities.py`). -/
structure StockQuote where
  stock_code : String
  trade_date : String
  open_price : ℚ
  high_price : ℚ
  low_price : ℚ
  close_price : ℚ
  prev_close : ℚ
  volume : Int
  amount : ℚ
  stock_name : Option String
  deriving DecidableEq, Repr

/-- One stored `stock_quotes` row (`StockQuoteModel`). -/
structure QuoteRow where
  stock_code : String
  stock_name : Option String
  trade_date : String
  open_price : ℚ
  high_price : ℚ
  low_price : ℚ
  close_price : ℚ
  prev_close : ℚ
  volume : Int
  amount : ℚ
  deriving DecidableEq, Repr

/-- The repository's lookup filter (repositories.py lines 38-47): a row
matches on `(stock_code, trade_date)`. -/
def matches_key (code date : String) (r : QuoteRow) : Bool :=
  r.stock_code == code && r.trade_date == date

/-- Python truthiness of the optional `stock_name` (repositories.py
line 58): false for absent and for the empty string. -/
def py_truthy_name (s : Option String) : Bool :=
  match s with
  | none => false
  | some v => !v.isEmpty

/-- The update branch of `StockQuoteRepository.upsert` (repositories.py
lines 49-62): the existing row's price, volume and amount fields are
overwritten, and `stock_name` only when the incoming name is truthy. -/
def update_existing (existing : QuoteRow) (q : StockQuote) : QuoteRow :=
  { existing with
    open_price := q.open_price
    high_price := q.high_price
    low_price := q.low_price
    close_price := q.close_price
    prev_close := q.prev_close
    volume := q.volume
    amount := q.amount
    stock_name := if py_truthy_name q.stock_name then q.stock_name else existing.stock_name }

/-- The insert branch of `StockQuoteRepository.upsert` (repositories.py
lines 64-78). -/
def new_row (q : StockQuote) : QuoteRow :=
  { stock_code := q.stock_code
    stock_name := q.stock_name
    trade_date := q.trade_date
    open_price := q.open_price
    high_price := q.high_price
    low_price := q.low_price
    close_price := q.close_price
    prev_close := q.prev_close
    volume := q.volume
    amount := q.amount }

/-- Apply the update branch to the first row matching the incoming
quote's key, as the repository's `.first()` query does. -/
def update_first : List QuoteRow → StockQuote → List QuoteRow
  | [], _ => []
  | r :: rest, q =>
    if matches_key q.stock_code q.trade_date r then update_existing r q :: rest
    else r :: update_first rest q

/-- `StockQuoteRepository.upsert` (repositories.py lines 23-89): update
the first existing row for `(stock_code, trade_date)`, or insert a new
one; the non-exceptional path returns `True`. -/
def StockQuoteRepository.upsert (table : List QuoteRow) (q : StockQuote) :
    List QuoteRow × Bool :=
  if table.any (matches_key q.stock_code q.trade_date) then (update_first table q, true)
  else (table ++ [new_row q], true)

/-- The update branch never touches a row's key fields. -/
theorem matches_key_update_existing (code date : String) (r : QuoteRow) (q : StockQuote) :
    matches_key code date (update_existing r q) = matches_key code date r := rfl

/-- A freshly inserted row matches the incoming quote's key. -/
theorem matches_key_new_row (q : StockQuote) :
    matches_key q.stock_code q.trade_date (new_row q) = true := by
  simp [matches_key, new_row]

/-- When a matching row exists and the key is stored at most once,
updating the first match leaves exactly one row for the key: the updated
copy of that match. -/
theorem update_first_filter (q : StockQuote) :
    ∀ t : List QuoteRow,
      t.any (matches_key q.stock_code q.trade_date) = true →
      (t.filter (matches_key q.stock_code q.trade_date)).length ≤ 1 →
      ∃ r, r ∈ t ∧ matches_key q.stock_code q.trade_date r = true ∧
        (update_first t q).filter (matches_key q.stock_code q.trade_date)
          = [update_existing r q] := by
  intro t
  induction t with
  | nil => intro h _; simp at h
  | cons r rest ih =>
    intro hany hcount
    by_cases hr : matches_key q.stock_code q.trade_date r = true
    · refine ⟨r, List.mem_cons_self r rest, hr, ?_⟩
      have hrestnil : rest.filter (matches_key q.stock_code q.trade_date) = [] := by
        have : ((r :: rest).filter (matches_key q.stock_code q.trade_date)).length
            = (rest.filter (matches_key q.stock_code q.trade_date)).length + 1 := by
          simp [List.filter_cons, hr]
        rw [this] at hcount
        have : (rest.filter (matches_key q.stock_code q.trade_date)).length = 0 := by omega
        exact List.length_eq_zero.mp this
      have hupd : update_first (r :: rest) q = update_existing r q :: rest := by
        show (if matches_key q.stock_code q.trade_date r then update_existing r q :: rest
          else r :: update_first rest q) = update_existing r q :: rest
        rw [if_pos hr]
      rw [hupd]
      rw [List.filter_cons]
      rw [matches_key_update_existing, hr]
      simp [hrestnil]
    · have hrb : matches_key q.stock_code q.trade_date r = false :=
        Bool.eq_false_iff.mpr hr
      have hany2 : rest.any (matches_key q.stock_code q.trade_date) = true := by
        rw [List.any_cons, hrb] at hany
        simpa using hany
      have hcount2 : (rest.filter (matches_key q.stock_code q.trade_date)).length ≤ 1 := by
        rw [List.filter_cons, hrb] at hcount
        simpa using hcount
      obtain ⟨r2, hmem, hkey, hfil⟩ := ih hany2 hcount2
      refine ⟨r2, List.mem_cons_of_mem r hmem, hkey, ?_⟩
      have hupd : update_first (r :: rest) q = r :: update_first rest q := by
        show (if matches_key q.stock_code q.trade_date r then update_existing r q :: rest
          else r :: update_first rest q) = r :: update_first rest q
        rw [if_neg hr]
      rw [hupd, List.filter_cons, hrb]
      simpa using hfil

/-- The update path of the upsert, as one equation. -/
theorem upsert_eq_update (u : List QuoteRow) (p : StockQuote)
    (h : u.any (matches_key p.stock_code p.trade_date) = true) :
    StockQuoteRepository.upsert u p = (update_first u p, true) := by
  unfold StockQuoteRepository.upsert
  rw [if_pos h]

/-- The insert path of the upsert, as one equation. -/
theorem upsert_eq_insert (u : List QuoteRow) (p : StockQuote)
    (h : ¬ u.any (matches_key p.stock_code p.trade_date) = true) :
    StockQuoteRepository.upsert u p = (u ++ [new_row p], true) := by
  unfold StockQuoteRepository.upsert
  rw [if_neg h]

/-- The upsert's non-exceptional path reports success. -/
theorem upsert_returns_true (u : List QuoteRow) (p : StockQuote) :
    (StockQuoteRepository.upsert u p).2 = true := by
  by_cases h : u.any (matches_key p.stock_code p.trade_date) = true
  · rw [upsert_eq_update u p h]
  · rw [upsert_eq_insert u p h]

/-- C4.  Two successive upserts with the same `(stock_code, trade_date)`
key against a table storing that key at most once leave exactly one row
for the key, its price, volume and amount fields those of the latest
upsert, and each call returns `True`. -/
theorem upsert_idempotent (t : List QuoteRow) (q1 q2 : StockQuote)
    (hcode : q1.stock_code = q2.stock_code) (hdate : q1.trade_date = q2.trade_date)
    (hcount : (t.filter (matches_key q2.stock_code q2.trade_date)).length ≤ 1) :
    (StockQuoteRepository.upsert t q1).2 = true ∧
    (StockQuoteRepository.upsert (StockQuoteRepository.upsert t q1).1 q2).2 = true ∧
    ∃ r, (StockQuoteRepository.upsert (StockQuoteRepository.upsert t q1).1 q2).1.filter
          (matches_key q2.stock_code q2.trade_date) = [r] ∧
      r.open_price = q2.open_price ∧ r.high_price = q2.high_price ∧
      r.low_price = q2.low_price ∧ r.close_price = q2.close_price ∧
      r.prev_close = q2.prev_close ∧ r.volume = q2.volume ∧ r.amount = q2.amount := by
  have hone : ((StockQuoteRepository.upsert t q1).1.filter
      (matches_key q2.stock_code q2.trade_date)).length = 1 := by
    by_cases hany : t.any (matches_key q1.stock_code q1.trade_date) = true
    · rw [upsert_eq_update t q1 hany]
      have hcount' : (t.filter (matches_key q1.stock_code q1.trade_date)).length ≤ 1 := by
        rw [hcode, hdate]
        exact hcount
      obtain ⟨r1, _, _, hfil⟩ := update_first_filter q1 t hany hcount'
      rw [hcode, hdate] at hfil
      rw [hfil]
      rfl
    · rw [upsert_eq_insert t q1 hany]
      have hnil : t.filter (matches_key q1.stock_code q1.trade_date) = [] := by
        rw [List.filter_eq_nil_iff]
        intro a ha
        have hall := List.any_eq_true.not.mp hany
        push_neg at hall
        exact hall a ha
      rw [List.filter_append]
      rw [hcode, hdate] at hnil
      rw [hnil]
      have hnr : matches_key q2.stock_code q2.trade_date (new_row q1) = true := by
        rw [← hcode, ← hdate]
        exact matches_key_new_row q1
      simp [List.filter_cons, hnr]
  have hany1 : (StockQuoteRepository.upsert t q1).1.any
      (matches_key q2.stock_code q2.trade_date) = true := by
    obtain ⟨a, ha⟩ := List.length_eq_one.mp hone
    have hamem : a ∈ (StockQuoteRepository.upsert t q1).1.filter
        (matches_key q2.stock_code q2.trade_date) := by
      rw [ha]
      exact List.mem_singleton_self a
    rw [List.any_eq_true]
    exact ⟨a, List.mem_of_mem_filter hamem, List.of_mem_filter hamem⟩
  have hcount1 : ((StockQuoteRepository.upsert t q1).1.filter
      (matches_key q2.stock_code q2.trade_date)).length ≤ 1 := by
    rw [hone]
  obtain ⟨r2, _, _, hfil2⟩ :=
    update_first_filter q2 (StockQuoteRepository.upsert t q1).1 hany1 hcount1
  refine ⟨upsert_returns_true t q1, upsert_returns_true _ q2,
    ⟨update_existing r2 q2, ?_, rfl, rfl, rfl, rfl, rfl, rfl, rfl⟩⟩
  rw [upsert_eq_update _ q2 hany1]
  exact hfil2

/-- Witness for C4 at a concrete table: upserting the same key twice
into an empty table leaves one row carrying the second quote's close. -/
theorem upsert_idempotent_witness :
    ∃ r, (StockQuoteRepository.upsert
        (StockQuoteRepository.upsert []
          { stock_code := "600000", trade_date := "2025-01-06", open_price := 10,
            high_price := 11, low_price := 9, close_price := 10, prev_close := 10,
            volume := 1000, amount := 10000, stock_name := some "浦发银行" }).1
        { stock_code := "600000", trade_date := "2025-01-06", open_price := 101/10,
          high_price := 11, low_price := 10, close_price := 21/2, prev_close := 10,
          volume := 2000, amount := 21000, stock_name := some "浦发银行" }).1.filter
        (matches_key "600000" "2025-01-06") = [r] ∧
      r.open_price = 101/10 ∧ r.high_price = 11 ∧ r.low_price = 10 ∧
      r.close_price = 21/2 ∧ r.prev_close = 10 ∧ r.volume = 2000 ∧ r.amount = 21000 :=
  (upsert_idempotent []
    { stock_code := "600000", trade_date := "2025-01-06", open_price := 10,
      high_price := 11, low_price := 9, close_price := 10, prev_close := 10,
      volume := 1000, amount := 10000, stock_name := some "浦发银行" }
    { stock_code := "600000", trade_date := "2025-01-06", open_price := 101/10,
      high_price := 11, low_price := 10, close_price := 21/2, prev_close := 10,
      volume := 2000, amount := 21000, stock_name := some "浦发银行" }
    rfl rfl (by decide)).2.2

/-- C10.  An upsert against an existing row whose incoming quote carries
no usable name (absent or empty) overwrites the open, high, low, close,
prev-close, volume and amount fields but keeps the stored `stock_name`;
the name is replaced exactly when the incoming one is non-empty. -/
theorem upsert_keeps_name_when_blank (t : List QuoteRow) (q : StockQuote)
    (hcount : (t.filter (matches_key q.stock_code q.trade_date)).length ≤ 1)
    (hany : t.any (matches_key q.stock_code q.trade_date) = true) :
    ∃ r, r ∈ t ∧ matches_key q.stock_code q.trade_date r = true ∧
      (StockQuoteRepository.upsert t q).1.filter (matches_key q.stock_code q.trade_date)
        = [update_existing r q] ∧
      ((q.stock_name = none ∨ q.stock_name = some "") →
        (update_existing r q).stock_name = r.stock_name) ∧
      (∀ s, q.stock_name = some s → s ≠ "" →
        (update_existing r q).stock_name = some s) ∧
      (update_existing r q).open_price = q.open_price ∧
      (update_existing r q).high_price = q.high_price ∧
      (update_existing r q).low_price = q.low_price ∧
      (update_existing r q).close_price = q.close_price ∧
      (update_existing r q).prev_close = q.prev_close ∧
      (update_existing r q).volume = q.volume ∧
      (update_existing r q).amount = q.amount := by
  obtain ⟨r, hmem, hkey, hfil⟩ := update_first_filter q t hany hcount
  have hupq : StockQuoteRepository.upsert t q = (update_first t q, true) :=
    upsert_eq_update t q hany
  refine ⟨r, hmem, hkey, by rw [hupq]; exact hfil, ?_, ?_, rfl, rfl, rfl, rfl, rfl, rfl, rfl⟩
  · rintro (hn | hn)
    · simp [update_existing, py_truthy_name, hn]
    · have hf : py_truthy_name q.stock_name = false := by
        rw [hn]
        rfl
      simp [update_existing, hf]
  · rintro s hn hne
    have hie : s.isEmpty = false := by
      cases hcase : s.isEmpty
      · rfl
      · exact absurd ((String.isEmpty_iff s).mp hcase) hne
    have ht : py_truthy_name (some s) = true := by
      simp [py_truthy_name, hie]
    simp [update_existing, hn, ht]

/-- A stored quote row carrying a stock name, used by the C10 witness. -/
def named_row_example : QuoteRow :=
  { stock_code := "600000"
    stock_name := some "浦发银行"
    trade_date := "2025-01-06"
    open_price := 10
    high_price := 11
    low_price := 9
    close_price := 10
    prev_close := 10
    volume := 1000
    amount := 10000 }

/-- An incoming quote for the same key without a stock name, used by the
C10 witness. -/
def blank_name_quote_example : StockQuote :=
  { stock_code := "600000"
    trade_date := "2025-01-06"
    open_price := 10
    high_price := 12
    low_price := 10
    close_price := 12
    prev_close := 10
    volume := 3000
    amount := 36000
    stock_name := none }

/-- Witness for C10 at a concrete table: upserting a nameless quote over
a named row keeps the stored name and overwrites the close. -/
theorem upsert_keeps_name_when_blank_witness :
    ∃ r, r ∈ [named_row_example] ∧
      matches_key "600000" "2025-01-06" r = true ∧
      (StockQuoteRepository.upsert [named_row_example] blank_name_quote_example).1.filter
          (matches_key "600000" "2025-01-06")
        = [update_existing r blank_name_quote_example] ∧
      (update_existing r blank_name_quote_example).stock_name = r.stock_name := by
  obtain ⟨r, hmem, hkey, hfil, hname, -⟩ :=
    upsert_keeps_name_when_blank [named_row_example] blank_name_quote_example
      (by decide) (by decide)
  exact ⟨r, hmem, hkey, hfil, hname (Or.inl rfl)⟩

/-! ### Market-sentiment refresh (`app/data/market_service.py` lines 99-169) -/

/-- One row of the A-share spot dataframe as the sentiment computation
reads it: the change percentage and the turnover rate columns. -/
structure SpotRow where
  change_pct : ℚ
  turnover : ℚ
  deriving DecidableEq, Repr

/-- The `sentiment_data` dictionary persisted by the refresh.  When the
dataframe is empty the source leaves the count keys absent; the model
stores zeroes there, and every claim about the counts concerns the
non-empty path only. -/
structure SentimentData where
  fear_greed_index : ℕ
  market_mood : String
  trading_activity : String
  volatility : String
  up_count : ℕ
  down_count : ℕ
  flat_count : ℕ
  total_count : ℕ
  limit_up_count : ℕ
  limit_down_count : ℕ
  deriving DecidableEq, Repr

/-- `_refresh_market_sentiment_with_data` (market_service.py lines
99-169).  The source computes `int((up_count / total) * 100)`: `int`
truncates toward zero, which on this non-negative ratio is the floor;
the model writes the division in exact rational arithmetic.  The mood
bands, counts, limit counts and turnover-based activity follow the
source's if-chains; `total > 0` always holds on the non-empty branch. -/
def refresh_market_sentiment (df : List SpotRow) : SentimentData :=
  if df.isEmpty then
    { fear_greed_index := 50
      market_mood := "中性"
      trading_activity := "正常"
      volatility := "低"
      up_count := 0
      down_count := 0
      flat_count := 0
      total_count := 0
      limit_up_count := 0
      limit_down_count := 0 }
  else
    let up_count := (df.filter (fun x => decide (0 < x.change_pct))).length
    let down_count := (df.filter (fun x => decide (x.change_pct < 0))).length
    let flat_count := (df.filter (fun x => decide (x.change_pct = 0))).length
    let total := df.length
    let fear_greed := (⌊((up_count : ℚ) / (total : ℚ)) * 100⌋).toNat
    let mood :=
      if 70 ≤ fear_greed then "极度贪婪"
      else if 55 ≤ fear_greed then "偏乐观"
      else if 45 ≤ fear_greed then "中性"
      else if 30 ≤ fear_greed then "偏悲观"
      else "极度恐惧"
    let limit_up := (df.filter (fun x => decide ((99 : ℚ) / 10 ≤ x.change_pct))).length
    let limit_down := (df.filter (fun x => decide (x.change_pct ≤ -((99 : ℚ) / 10)))).length
    let avg_turnover := (df.map (fun x => x.turnover)).sum / (df.length : ℚ)
    let activity :=
      if 5 < avg_turnover then "活跃"
      else if 2 < avg_turnover then "正常"
      else "低迷"
    { fear_greed_index := fear_greed
      market_mood := mood
      trading_activity := activity
      volatility := "低"
      up_count := up_count
      down_count := down_count
      flat_count := flat_count
      total_count := total
      limit_up_count := limit_up
      limit_down_count := limit_down }

/-- The spec's formula for the index, written from the spec's words:
`round(100·up/total)`. -/
def fear_greed_round_spec (u t : ℕ) : ℤ :=
  round ((100 * (u : ℚ)) / t)

/-- The spec's mood bands, written from the spec's words: ≥70
extreme-greed, ≥55 optimistic, ≥45 neutral, ≥30 pessimistic, otherwise
extreme-fear. -/
def market_mood_bands_spec (i : ℕ) : String :=
  if 70 ≤ i then "极度贪婪"
  else if 55 ≤ i then "偏乐观"
  else if 45 ≤ i then "中性"
  else if 30 ≤ i then "偏悲观"
  else "极度恐惧"

/-- Truncation of the up/total ratio scaled to 100 is natural division. -/
theorem trunc_ratio_eq_div (u t : ℕ) :
    (⌊((u : ℚ) / (t : ℚ)) * 100⌋).toNat = (100 * u) / t := by
  have harg : ((u : ℚ) / (t : ℚ)) * 100 = ((100 * u : ℕ) : ℚ) / ((t : ℕ) : ℚ) := by
    push_cast
    ring
  rw [harg, Int.floor_toNat, Nat.floor_div_eq_div]

/-- The non-empty branch of the sentiment refresh, as one equation. -/
theorem refresh_market_sentiment_nonempty (df : List SpotRow) (h : ¬ df.isEmpty = true) :
    refresh_market_sentiment df =
      { fear_greed_index := (⌊(((df.filter (fun x => decide (0 < x.change_pct))).length : ℚ)
            / (df.length : ℚ)) * 100⌋).toNat
        market_mood := market_mood_bands_spec
          ((⌊(((df.filter (fun x => decide (0 < x.change_pct))).length : ℚ)
            / (df.length : ℚ)) * 100⌋).toNat)
        trading_activity :=
          if 5 < (df.map (fun x => x.turnover)).sum / (df.length : ℚ) then "活跃"
          else if 2 < (df.map (fun x => x.turnover)).sum / (df.length : ℚ) then "正常"
          else "低迷"
        volatility := "低"
        up_count := (df.filter (fun x => decide (0 < x.change_pct))).length
        down_count := (df.filter (fun x => decide (x.change_pct < 0))).length
        flat_count := (df.filter (fun x => decide (x.change_pct = 0))).length
        total_count := df.length
        limit_up_count := (df.filter (fun x => decide ((99 : ℚ) / 10 ≤ x.change_pct))).length
        limit_down_count :=
          (df.filter (fun x => decide (x.change_pct ≤ -((99 : ℚ) / 10)))).length } := by
  unfold refresh_market_sentiment
  rw [if_neg h]
  rfl

/-- A snapshot with three stocks of which two are up. -/
def spot_df_example : List SpotRow :=
  [{ change_pct := 1, turnover := 1 }, { change_pct := 2, turnover := 1 },
    { change_pct := -1, turnover := 1 }]

/-- C5 counterexample.  On a snapshot with 2 stocks up out of 3 the code
stores `int((2/3)*100) = 66`, while the claim's `round(100·2/3)` is 67:
the stored index is the truncation, not the rounding, of the scaled
ratio. -/
theorem fear_greed_not_rounded :
    (spot_df_example.filter (fun x => decide (0 < x.change_pct))).length = 2 ∧
    spot_df_example.length = 3 ∧
    (refresh_market_sentiment spot_df_example).fear_greed_index = 66 ∧
    fear_greed_round_spec 2 3 = 67 ∧
    ((refresh_market_sentiment spot_df_example).fear_greed_index : ℤ) ≠
      fear_greed_round_spec 2 3 := by
  have hd1 : (decide ((0 : ℚ) < 1)) = true := by
    rw [decide_eq_true_eq]
    norm_num
  have hd2 : (decide ((0 : ℚ) < 2)) = true := by
    rw [decide_eq_true_eq]
    norm_num
  have hd3 : (decide ((0 : ℚ) < -1)) = false := by
    rw [decide_eq_false_iff_not]
    norm_num
  have hfil : spot_df_example.filter (fun x => decide (0 < x.change_pct)) =
      [{ change_pct := 1, turnover := 1 }, { change_pct := 2, turnover := 1 }] := by
    simp [spot_df_example, List.filter_cons, hd1, hd2, hd3]
  have h66 : (refresh_market_sentiment spot_df_example).fear_greed_index = 66 := by
    rw [refresh_market_sentiment_nonempty spot_df_example (by decide)]
    show (⌊(((spot_df_example.filter
        (fun x => decide (0 < x.change_pct))).length : ℚ) / (spot_df_example.length : ℚ))
          * 100⌋).toNat = 66
    rw [hfil]
    rw [show ([{ change_pct := 1, turnover := 1 },
      { change_pct := 2, turnover := 1 }] : List SpotRow).length = 2 from rfl]
    rw [show spot_df_example.length = 3 from rfl]
    rw [trunc_ratio_eq_div 2 3]
  have hround : fear_greed_round_spec 2 3 = 67 := by
    rw [fear_greed_round_spec, round_eq]
    norm_num
  refine ⟨by rw [hfil]; rfl, rfl, h66, hround, ?_⟩
  rw [h66, hround]
  norm_num

/-- C5 as amended.  On any non-empty snapshot the stored index is the
truncation `⌊100·up/total⌋` (natural division, not rounding), and the
stored mood is exactly the spec's band function at that index. -/
theorem market_sentiment_truncated_index_and_bands (df : List SpotRow)
    (h : ¬ df.isEmpty = true) :
    (refresh_market_sentiment df).fear_greed_index
      = (100 * (df.filter (fun x => decide (0 < x.change_pct))).length) / df.length ∧
    (refresh_market_sentiment df).up_count
      = (df.filter (fun x => decide (0 < x.change_pct))).length ∧
    (refresh_market_sentiment df).total_count = df.length ∧
    (refresh_market_sentiment df).market_mood
      = market_mood_bands_spec (refresh_market_sentiment df).fear_greed_index := by
  rw [refresh_market_sentiment_nonempty df h]
  exact ⟨trunc_ratio_eq_div _ _, rfl, rfl, rfl⟩

/-- Witness for C5 at the concrete snapshot: the index is ⌊200/3⌋ = 66
and the mood is its band. -/
theorem market_sentiment_truncated_index_and_bands_witness :
    (refresh_market_sentiment spot_df_example).fear_greed_index
      = (100 * (spot_df_example.filter (fun x => decide (0 < x.change_pct))).length)
          / spot_df_example.length ∧
    (refresh_market_sentiment spot_df_example).market_mood
      = market_mood_bands_spec (refresh_market_sentiment spot_df_example).fear_greed_index :=
  ⟨(market_sentiment_truncated_index_and_bands spot_df_example (by decide)).1,
    (market_sentiment_truncated_index_and_bands spot_df_example (by decide)).2.2.2⟩

/-! ### Task executor (`app/core/task_executor.py`) -/

/-- Status of one per-agent result inside a task run. -/
inductive AgentRunStatus
  | success
  | failed
  | skipped
  deriving DecidableEq, Repr

/-- One entry of `agent_results` as `_execute_agents` builds it. -/
structure AgentResult where
  agent_id : String
  agent_name : String
  status : AgentRunStatus
  error_message : Option String
  deriving DecidableEq, Repr

/-- The fields of `SystemTaskModel` the executor reads. -/
structure TaskModel where
  status : String
  trading_day_only : Bool
  task_type : String
  deriving DecidableEq, Repr

/-- A calendar date as the skip check uses it: its printed `Y-m-d` form
and its Python weekday (Monday = 0 … Sunday = 6). -/
structure DateInfo where
  ymd : String
  weekday : Fin 7
  deriving DecidableEq, Repr

/-- Modelled from the spec: `is_trading_day(date)` lives in
`app/core/trading_rules.py`, which is not among the staged sources; §4.10
says it returns false on weekends and on a static list of known market
holidays, so a trading day is a weekday (Monday-Friday) not on the
list. -/
def is_trading_day (holidays : List String) (d : DateInfo) : Bool :=
  decide (d.weekday.val < 5) && !(holidays.contains d.ymd)

/-- `weekday_names` of task_executor.py line 299. -/
def weekday_names : List String :=
  ["周一", "周二", "周三", "周四", "周五", "周六", "周日"]

/-- The non-trading-day skip reason of task_executor.py line 300: the
date followed by its weekday name. -/
def non_trading_reason (d : DateInfo) : String :=
  "非交易日（" ++ d.ymd ++ " " ++ weekday_names.getD d.weekday.val "" ++ "）"

/-- `TaskExecutor._should_skip` (task_executor.py lines 280-302): paused
tasks are skipped with reason 任务已暂停; `trading_day_only` tasks on a
non-trading day are skipped with the dated reason. -/
def should_skip (task : TaskModel) (today : DateInfo) (holidays : List String) :
    Bool × Option String :=
  if task.status = "paused" then (true, some "任务已暂停")
  else if task.trading_day_only && !(is_trading_day holidays today) then
    (true, some (non_trading_reason today))
  else (false, none)

/-- The executed task's log row as `execute_task` finishes it. -/
structure TaskLogRow where
  status : String
  skip_reason : Option String
  error_message : Option String
  agent_results : List AgentResult
  deriving DecidableEq, Repr

/-- Task-type resolution of task_executor.py lines 76-80: an absent type
defaults to agent_decision and so does an unknown one. -/
def parse_task_type (s : String) : String :=
  if s = "" then "agent_decision"
  else if s = "agent_decision" ∨ s = "quote_sync" ∨ s = "market_refresh" then s
  else "agent_decision"

/-- The overall-status computation of task_executor.py lines 116-123:
failed only when every per-agent result failed and there was at least
one; partial success and the empty run count as success. -/
def agent_decision_overall (results : List AgentResult) : String × Option String :=
  let failed_count := results.countP (fun r => decide (r.status = AgentRunStatus.failed))
  if failed_count = results.length ∧ 0 < results.length then
    ("failed", some "所有Agent执行失败")
  else if 0 < failed_count then ("success", none)
  else ("success", none)

/-- `TaskExecutor.execute_task` (task_executor.py lines 54-153) on the
paths the claims are about: the skip check runs before any dispatch and
closes the log row at skipped with no work done; an agent-decision
dispatch stores the per-agent results and the overall status.  The
per-agent results and the other dispatchers' success flag are inputs
(they come from the decision callback and the delegated services); the
returned list collects the side effects the run performed, empty on the
skip path. -/
def execute_task (task : TaskModel) (today : DateInfo) (holidays : List String)
    (agent_results : List AgentResult) (other_ok : Bool) (dispatch_effects : List String) :
    TaskLogRow × List String :=
  let tt := parse_task_type task.task_type
  let sk := should_skip task today holidays
  if sk.1 then
    ({ status := "skipped", skip_reason := sk.2, error_message := none, agent_results := [] }, [])
  else if tt = "agent_decision" then
    let ov := agent_decision_overall agent_results
    ({ status := ov.1, skip_reason := none, error_message := ov.2,
       agent_results := agent_results }, dispatch_effects)
  else
    ({ status := if other_ok then "success" else "failed", skip_reason := none,
       error_message := none, agent_results := [] }, dispatch_effects)

/-- C6.  For an agent-decision run that is not skipped, the final log
status is failed exactly when there was at least one per-agent result
and all of them failed; in every other case (partial failures and the
empty run included) it is success. -/
theorem task_failed_iff_all_agents_failed (results : List AgentResult) :
    ((agent_decision_overall results).1 = "failed" ↔
      results ≠ [] ∧ ∀ r ∈ results, r.status = AgentRunStatus.failed) ∧
    ((agent_decision_overall results).1 = "failed" ∨
      (agent_decision_overall results).1 = "success") ∧
    (∀ task today holidays ok eff,
      (should_skip task today holidays).1 = false →
      parse_task_type task.task_type = "agent_decision" →
      (execute_task task today holidays results ok eff).1.status
          = (agent_decision_overall results).1 ∧
      (execute_task task today holidays results ok eff).1.agent_results = results) := by
  refine ⟨?_, ?_, ?_⟩
  · unfold agent_decision_overall
    by_cases h : results.countP (fun r => decide (r.status = AgentRunStatus.failed))
        = results.length ∧ 0 < results.length
    · rw [if_pos h]
      refine ⟨fun _ => ⟨List.length_pos.mp h.2, fun r hr => ?_⟩, fun _ => rfl⟩
      have hc := List.countP_eq_length.mp h.1 r hr
      simpa [decide_eq_true_eq] using hc
    · rw [if_neg h]
      have hs : (if 0 < results.countP (fun r => decide (r.status = AgentRunStatus.failed))
          then (("success" : String), (none : Option String))
          else ("success", none)).1 = "success" := by
        split <;> rfl
      rw [hs]
      constructor
      · intro hcontra
        exact absurd hcontra (by decide)
      · rintro ⟨hne, hall⟩
        refine absurd ⟨?_, List.length_pos.mpr hne⟩ h
        exact List.countP_eq_length.mpr fun r hr => decide_eq_true (hall r hr)
  · unfold agent_decision_overall
    by_cases h : results.countP (fun r => decide (r.status = AgentRunStatus.failed))
        = results.length ∧ 0 < results.length
    · rw [if_pos h]
      exact Or.inl rfl
    · rw [if_neg h]
      refine Or.inr ?_
      split <;> rfl
  · intro task today holidays ok eff hns htt
    constructor <;>
      simp [execute_task, hns, htt]

/-- A single failed per-agent result, used by the C6 witness. -/
def failed_result_example : AgentResult :=
  { agent_id := "a1"
    agent_name := "n1"
    status := AgentRunStatus.failed
    error_message := some "boom" }

/-- Witness for C6 at concrete runs: one failed result out of one makes
the run failed; the empty run stays success. -/
theorem task_failed_iff_all_agents_failed_witness :
    (agent_decision_overall [failed_result_example]).1 = "failed" ∧
    (agent_decision_overall []).1 = "success" := by
  constructor
  · refine (task_failed_iff_all_agents_failed [failed_result_example]).1.mpr ⟨?_, ?_⟩
    · simp
    · intro r hr
      rw [List.mem_singleton] at hr
      rw [hr]
      rfl
  · cases (task_failed_iff_all_agents_failed []).2.1 with
    | inl hfail =>
      exact absurd ((task_failed_iff_all_agents_failed []).1.mp hfail).1 (by simp)
    | inr hsucc => exact hsucc

/-- C7.  A paused task, and a trading-day-only task on a non-trading
day, finish with exactly one log row at status skipped carrying the
prescribed reason (任务已暂停 when paused, otherwise the dated
non-trading-day string), no per-agent results and no side effects. -/
theorem task_skip_writes_skipped_log (task : TaskModel) (today : DateInfo)
    (holidays : List String) (results : List AgentResult) (ok : Bool) (eff : List String)
    (h : task.status = "paused" ∨
      (task.trading_day_only = true ∧ is_trading_day holidays today = false)) :
    (execute_task task today holidays results ok eff).1.status = "skipped" ∧
    (execute_task task today holidays results ok eff).1.skip_reason
      = some (if task.status = "paused" then "任务已暂停" else non_trading_reason today) ∧
    (execute_task task today holidays results ok eff).1.agent_results = [] ∧
    (execute_task task today holidays results ok eff).2 = [] := by
  have hsk : should_skip task today holidays =
      (true, some (if task.status = "paused" then "任务已暂停"
        else non_trading_reason today)) := by
    unfold should_skip
    by_cases hp : task.status = "paused"
    · rw [if_pos hp, if_pos hp]
    · rw [if_neg hp, if_neg hp]
      rcases h with h | ⟨ht, hnt⟩
      · exact absurd h hp
      · rw [ht, hnt]
        rfl
  refine ⟨?_, ?_, ?_, ?_⟩ <;>
    simp [execute_task, hsk]

/-- A paused task, used by the C7 witness. -/
def paused_task_example : TaskModel :=
  { status := "paused"
    trading_day_only := false
    task_type := "agent_decision" }

/-- A Monday, used by the C7 witness. -/
def date_example : DateInfo :=
  { ymd := "2025-01-06"
    weekday := 0 }

/-- Witness for C7 at a concrete paused task: the run is skipped with
reason 任务已暂停 and no effects. -/
theorem task_skip_writes_skipped_log_witness :
    (execute_task paused_task_example date_example [] [] true ["llm"]).1.status = "skipped" ∧
    (execute_task paused_task_example date_example [] [] true ["llm"]).2 = [] := by
  have h := task_skip_writes_skipped_log paused_task_example date_example [] [] true ["llm"]
    (Or.inl rfl)
  exact ⟨h.1, h.2.2.2⟩

/-! ### Agent list endpoint (`list_agents`, agents.py lines 715-762) -/

/-- Agent lifecycle states (`app/models/enums.py` AgentStatus). -/
inductive AgentStatus
  | active
  | paused
  | deleted
  deriving DecidableEq, Repr

/-- The enum's string value. -/
def AgentStatus.value : AgentStatus → String
  | .active => "active"
  | .paused => "paused"
  | .deleted => "deleted"

/-- The fields of a stored agent the list endpoint reads. -/
structure ModelAgent where
  agent_id : String
  name : String
  created_at : Nat
  status : AgentStatus
  deriving DecidableEq, Repr

/-- The paginated response body (`AgentListResponse`). -/
structure AgentListResponse where
  total : Nat
  page : Nat
  page_size : Nat
  total_pages : Nat
  agents : List ModelAgent
  deriving DecidableEq, Repr

/-- The status filter of agents.py lines 731-732: applied only when the
query value is truthy (present and non-empty). -/
def filter_by_status (all : List ModelAgent) (status_q : Option String) : List ModelAgent :=
  if py_truthy_name status_q then
    all.filter (fun a => a.status.value == status_q.getD "")
  else all

/-- The sort of agents.py lines 738-746: by name or created_at with the
requested direction when `sort_by` is truthy (an unrecognised field
leaves the order untouched), by created_at descending otherwise.  Python
sorts stably in place; the model sorts with the matching comparator, and
the claims below use only that sorting permutes the list. -/
def sort_agents (l : List ModelAgent) (sort_by : Option String) (sort_order : String) :
    List ModelAgent :=
  if py_truthy_name sort_by then
    if sort_by = some "name" then
      if sort_order = "desc" then l.mergeSort (fun a b => decide (b.name ≤ a.name))
      else l.mergeSort (fun a b => decide (a.name ≤ b.name))
    else if sort_by = some "created_at" then
      if sort_order = "desc" then l.mergeSort (fun a b => decide (b.created_at ≤ a.created_at))
      else l.mergeSort (fun a b => decide (a.created_at ≤ b.created_at))
    else l
  else
    l.mergeSort (fun a b => decide (b.created_at ≤ a.created_at))

/-- `list_agents` (agents.py lines 715-762): status filter, exclusion of
deleted agents, sort, then slice `[offset : offset + page_size]` with
`total` counted over the whole filtered list. -/
def list_agents (all : List ModelAgent) (page page_size : Nat)
    (status_q sort_by : Option String) (sort_order : String) : AgentListResponse :=
  let l1 := filter_by_status all status_q
  let l2 := l1.filter (fun a => decide (a.status ≠ AgentStatus.deleted))
  let l3 := sort_agents l2 sort_by sort_order
  let total := l3.length
  let total_pages := (total + page_size - 1) / page_size
  let offset := (page - 1) * page_size
  { total := total
    page := page
    page_size := page_size
    total_pages := total_pages
    agents := (l3.drop offset).take page_size }

/-- Sorting only permutes the agent list. -/
theorem sort_agents_perm (l : List ModelAgent) (sort_by : Option String)
    (sort_order : String) : (sort_agents l sort_by sort_order).Perm l := by
  unfold sort_agents
  repeat' split
  all_goals first
    | exact List.mergeSort_perm l _
    | exact List.Perm.refl l

/-- C9.  For every stored agent set and query combination, the page
returned by the agent list contains no deleted agent, and the reported
total counts exactly the non-deleted agents matching the status
filter. -/
theorem list_agents_excludes_deleted (all : List ModelAgent) (page page_size : Nat)
    (status_q sort_by : Option String) (sort_order : String) :
    (∀ a ∈ (list_agents all page page_size status_q sort_by sort_order).agents,
      a.status ≠ AgentStatus.deleted) ∧
    (list_agents all page page_size status_q sort_by sort_order).total
      = ((filter_by_status all status_q).filter
          (fun a => decide (a.status ≠ AgentStatus.deleted))).length := by
  constructor
  · intro a ha
    have ha2 : a ∈ ((sort_agents ((filter_by_status all status_q).filter
        (fun x => decide (x.status ≠ AgentStatus.deleted))) sort_by sort_order).drop
          ((page - 1) * page_size)).take page_size := ha
    have hsub : List.Sublist
        (((sort_agents ((filter_by_status all status_q).filter
          (fun x => decide (x.status ≠ AgentStatus.deleted))) sort_by sort_order).drop
            ((page - 1) * page_size)).take page_size)
        (sort_agents ((filter_by_status all status_q).filter
          (fun x => decide (x.status ≠ AgentStatus.deleted))) sort_by sort_order) :=
      (List.take_sublist _ _).trans (List.drop_sublist _ _)
    have h3 := hsub.subset ha2
    have h2 := (sort_agents_perm _ sort_by sort_order).mem_iff.mp h3
    have h1 := List.of_mem_filter h2
    simpa [decide_eq_true_eq] using h1
  · exact (sort_agents_perm _ sort_by sort_order).length_eq

/-- A stored set with one active and one deleted agent. -/
def agents_example : List ModelAgent :=
  [{ agent_id := "a1", name := "alpha", created_at := 1, status := AgentStatus.active },
    { agent_id := "a2", name := "beta", created_at := 2, status := AgentStatus.deleted }]

/-- Witness for C9 at a concrete store: the default listing of a set
with one deleted agent reports the non-deleted count. -/
theorem list_agents_excludes_deleted_witness :
    (list_agents agents_example 1 20 none none "desc").total
      = ((filter_by_status agents_example none).filter
          (fun a => decide (a.status ≠ AgentStatus.deleted))).length :=
  (list_agents_excludes_deleted agents_example 1 20 none none "desc").2
